import Mathlib

/-!
Verification of the sandironratio-node council core against its
natural-language specification.

The Python sources are shallowly embedded:
* Python `float` values are embedded as `ℚ` (all constants involved are
  exact decimal fractions, and the claims concern exact bookkeeping);
* `datetime` timestamps are embedded as abstract clock values passed in
  explicitly;
* Python `dict`s are embedded as association lists preserving insertion
  order (Python dicts preserve insertion order);
* code that can raise is embedded with `Option`/`Except`.
-/

namespace Council

/-! ## protected_repos.py -/

/-- `SOVEREIGN_TERRITORY` from protected_repos.py lines 17-20. -/
def SOVEREIGN_TERRITORY : List String :=
  ["sofie-llama-backend", "sofie-backend"]

/-- `PROTECTED_PATTERNS` from protected_repos.py lines 23-26. -/
def PROTECTED_PATTERNS : List String :=
  ["sofie-*", "*sofie*"]

/-- `PERMITTED_ECOSYSTEM_REPOS` from protected_repos.py lines 136-149. -/
def PERMITTED_ECOSYSTEM_REPOS : List String :=
  ["pollen", "sandironratio-node", "terracare-ledger", "terracare-bridge",
   "hive-api", "heartware", "harmonic-balance", "terratrek",
   "nectar-tracker", "sofie-dashboard", "wellness-bridge"]

/-- Embedding of CPython `fnmatch.fnmatch` on POSIX (where `os.path.normcase`
is the identity, so matching is case-sensitive), restricted to the pattern
features actually occurring in `PROTECTED_PATTERNS`: literal characters and
the wildcards `*` (any sequence of characters) and `?` (any single
character); character classes `[...]` do not occur in any pattern of this
repository.  A `*` matches an arbitrary sequence, i.e. the remainder of the
pattern must match some suffix of the string. -/
def globMatch : List Char → List Char → Bool
  | [], s => s.isEmpty
  | '*' :: ps, s => s.tails.any (fun t => globMatch ps t)
  | p :: ps, s =>
    match s with
    | [] => false
    | c :: cs => (p == '?' || p == c) && globMatch ps cs

/-- Embedding of Python `repo_name.split("/")[-1]`: the suffix of the string
after its last `'/'` (the whole string when no `'/'` occurs). -/
def lastSlashSegment (s : List Char) : List Char :=
  ((s.reverse.takeWhile (fun c => c ≠ '/')).reverse)

/-- The owner-prefix stripping step of `is_sovereign_territory`
(protected_repos.py lines 89-91): when the name contains a `'/'`, replace it
by `repo_name.split("/")[-1]`. -/
def bareRepoName (repo_name : String) : List Char :=
  let s := repo_name.toList
  if s.contains '/' then lastSlashSegment s else s

/-- `is_sovereign_territory` from protected_repos.py lines 79-103.
Strips the owner prefix when a `'/'` is present, then checks exact
membership in `SOVEREIGN_TERRITORY` and `fnmatch` against each entry of
`PROTECTED_PATTERNS`. -/
def is_sovereign_territory (repo_name : String) : Bool :=
  let bare := bareRepoName repo_name
  (SOVEREIGN_TERRITORY.map String.toList).contains bare
    || (PROTECTED_PATTERNS.map String.toList).any (fun p => globMatch p bare)

/-- `SovereignTerritoryError` from protected_repos.py lines 40-76:
the exception carries the repository name and the attempted action. -/
structure SovereignTerritoryError where
  repo_name : String
  attempted_action : String
deriving DecidableEq, Repr

/-- `validate_repo_access` from protected_repos.py lines 106-118:
raises `SovereignTerritoryError(repo_name, attempted_action)` when
`is_sovereign_territory` holds and returns `None` otherwise. -/
def validate_repo_access (repo_name : String) (attempted_action : String := "access") :
    Except SovereignTerritoryError Unit :=
  if is_sovereign_territory repo_name then
    Except.error ⟨repo_name, attempted_action⟩
  else
    Except.ok ()

/-- `get_permitted_repos` from protected_repos.py lines 121-131. -/
def get_permitted_repos (all_repos : List String) : List String :=
  all_repos.filter (fun repo => !is_sovereign_territory repo)

/-- `get_ecosystem_build_targets` from protected_repos.py lines 152-162
(returns a copy of `PERMITTED_ECOSYSTEM_REPOS`). -/
def get_ecosystem_build_targets : List String :=
  PERMITTED_ECOSYSTEM_REPOS

/-- The spec's own wording of `isProtected` (spec §4.6): the name is
"first reduced to its bare name" unconditionally, then matched exactly
against the protected-name set or glob-matched against the pattern set. -/
def isProtectedSpec (name : String) : Bool :=
  let bare := lastSlashSegment name.toList
  (SOVEREIGN_TERRITORY.map String.toList).contains bare
    || (PROTECTED_PATTERNS.map String.toList).any (fun p => globMatch p bare)

/-- When a string has no `'/'`, taking the suffix after the last `'/'` is
the identity. -/
theorem lastSlashSegment_of_not_contains {s : List Char}
    (h : s.contains '/' = false) : lastSlashSegment s = s := by
  have hmem : ¬ ('/' ∈ s) := by simpa using h
  unfold lastSlashSegment
  have h' : ∀ c ∈ s.reverse, (decide (c ≠ '/')) = true := by
    intro c hc
    simp only [List.mem_reverse] at hc
    simp only [decide_eq_true_eq]
    rintro rfl
    exact hmem hc
  rw [List.takeWhile_eq_self_iff.mpr h', List.reverse_reverse]

/-- A trailing `*` in a pattern matches any remaining string. -/
theorem globMatch_star_nil (s : List Char) : globMatch ['*'] s = true := by
  simp only [globMatch, List.any_eq_true]
  exact ⟨[], by simp, by simp [globMatch]⟩

/-- The pattern `sofie*` matches every string that starts with `sofie`. -/
theorem globMatch_sofie_star {t : List Char}
    (h : ('s' :: 'o' :: 'f' :: 'i' :: 'e' :: []) <+: t) :
    globMatch ('s' :: 'o' :: 'f' :: 'i' :: 'e' :: '*' :: []) t = true := by
  obtain ⟨u, rfl⟩ := h
  simp [globMatch, globMatch_star_nil u]

/-- The pattern `*sofie*` matches every string containing `sofie`. -/
theorem globMatch_star_sofie_star {s : List Char}
    (h : ('s' :: 'o' :: 'f' :: 'i' :: 'e' :: []) <:+: s) :
    globMatch ('*' :: 's' :: 'o' :: 'f' :: 'i' :: 'e' :: '*' :: []) s = true := by
  obtain ⟨t, hpre, hsuf⟩ := List.infix_iff_prefix_suffix.mp h
  simp only [globMatch, List.any_eq_true]
  exact ⟨t, by simpa using hsuf, globMatch_sofie_star hpre⟩

/-- Claim C1: `is_sovereign_territory` agrees on every input with the spec's
`isProtected` contract (reduce an owner-prefixed name to its bare name, then
exact-match against the protected set or glob-match against the protected
patterns), and in particular classifies `"sofie-llama-backend"`,
`"owner/sofie-llama-backend"` and `"pollen"` as the spec requires. -/
theorem claim_C1_isProtected :
    (∀ name : String, is_sovereign_territory name = isProtectedSpec name) ∧
    is_sovereign_territory "sofie-llama-backend" = true ∧
    is_sovereign_territory "owner/sofie-llama-backend" = true ∧
    is_sovereign_territory "pollen" = false := by
  refine ⟨?_, by decide, by decide, by decide⟩
  intro name
  unfold is_sovereign_territory isProtectedSpec bareRepoName
  by_cases hc : (name.toList).contains '/' = true
  · have hm : '/' ∈ name.data := by simpa [String.toList] using hc
    simp [hm]
  · have hc' : (name.toList).contains '/' = false := by
      simpa using hc
    have hm : ¬ ('/' ∈ name.data) := by simpa [String.toList] using hc'
    have hseg : lastSlashSegment name.data = name.data :=
      lastSlashSegment_of_not_contains (by simpa [String.toList] using hc')
    simp [hm, hseg]

/-- Claim C2: `validate_repo_access(name, action)` raises
`SovereignTerritoryError` carrying exactly that name and action when
`is_sovereign_territory name` holds, returns normally (with no other
effect) otherwise, and in particular `validate_repo_access("sofie-backend",
"clone")` raises. -/
theorem claim_C2_validate_repo_access :
    (∀ name action : String, is_sovereign_territory name = true →
      validate_repo_access name action =
        Except.error ⟨name, action⟩) ∧
    (∀ name action : String, is_sovereign_territory name = false →
      validate_repo_access name action = Except.ok ()) ∧
    validate_repo_access "sofie-backend" "clone" =
      Except.error ⟨"sofie-backend", "clone"⟩ := by
  refine ⟨?_, ?_, by rfl⟩
  · intro name action h
    simp [validate_repo_access, h]
  · intro name action h
    simp [validate_repo_access, h]

/-- Witness for claim C2 at a concrete protected name and action. -/
theorem claim_C2_witness :
    validate_repo_access "sofie-llama-backend" "read" =
      Except.error ⟨"sofie-llama-backend", "read"⟩ :=
  claim_C2_validate_repo_access.1 "sofie-llama-backend" "read" (by decide)

/-- Claim C10: every repository whose bare name contains the substring
`sofie` is sovereign territory (via the `*sofie*` protected pattern);
consequently `"sofie-dashboard"` is listed in `PERMITTED_ECOSYSTEM_REPOS`
and returned by `get_ecosystem_build_targets`, yet is removed by
`get_permitted_repos`. -/
theorem claim_C10_sofie_substring :
    (∀ name : String,
      ('s' :: 'o' :: 'f' :: 'i' :: 'e' :: []) <:+: bareRepoName name →
      is_sovereign_territory name = true) ∧
    PERMITTED_ECOSYSTEM_REPOS.contains "sofie-dashboard" = true ∧
    get_ecosystem_build_targets.contains "sofie-dashboard" = true ∧
    (get_permitted_repos PERMITTED_ECOSYSTEM_REPOS).contains "sofie-dashboard"
      = false := by
  refine ⟨?_, by decide, by decide, by decide⟩
  intro name h
  unfold is_sovereign_territory
  simp only [Bool.or_eq_true, List.any_eq_true]
  refine Or.inr ⟨('*' :: 's' :: 'o' :: 'f' :: 'i' :: 'e' :: '*' :: []), ?_, ?_⟩
  · simp [PROTECTED_PATTERNS]
  · exact globMatch_star_sofie_star h

/-- Witness for claim C10: a name whose bare part contains `sofie` without
being any exact protected name. -/
theorem claim_C10_witness :
    is_sovereign_territory "owner/team-sofie-tools" = true :=
  claim_C10_sofie_substring.1 "owner/team-sofie-tools" (by decide)

/-! ## diligence_ledger.py -/

/-- The fields of a task object that `DiligenceLedger.record_completion`
reads (`task.id`, `task.title`, `task.repo`; the `hasattr` fallbacks in
lines 96-98 only apply to non-task arguments and are not modelled). -/
structure TaskRef where
  id : String
  title : String
  repo : String
deriving DecidableEq, Repr

/-- `NectarAccrualRecord` from diligence_ledger.py lines 18-30. -/
structure NectarAccrualRecord where
  agent_name : String
  task_id : String
  task_title : String
  repo : String
  hours_worked : ℚ
  base_rate : ℚ
  quality_multiplier : ℚ
  nectar_accrued : ℚ
  timestamp : Nat
  blockchain_eligible : Bool := true
deriving DecidableEq, Repr

/-- One per-agent entry of `DiligenceLedger.agent_totals`
(diligence_ledger.py lines 110-115). -/
structure AgentTotals where
  total_nectar : ℚ
  total_hours : ℚ
  tasks_completed : Nat
deriving DecidableEq, Repr

/-- The in-memory state of a `DiligenceLedger` (diligence_ledger.py lines
53-55); the `agent_totals` dict is embedded as an insertion-ordered
association list. -/
structure LedgerState where
  records : List NectarAccrualRecord
  agent_totals : List (String × AgentTotals)
deriving DecidableEq, Repr

/-- Python dict read `agent_totals.get(name)`. -/
def lookupTotals : List (String × AgentTotals) → String → Option AgentTotals
  | [], _ => none
  | (k, v) :: rest, a => if k = a then some v else lookupTotals rest a

/-- Python dict write `agent_totals[name] = v`: update in place when the key
exists, append otherwise. -/
def setTotals : List (String × AgentTotals) → String → AgentTotals →
    List (String × AgentTotals)
  | [], a, v => [(a, v)]
  | (k, w) :: rest, a, v =>
    if k = a then (k, v) :: rest else (k, w) :: setTotals rest a v

/-- `DiligenceLedger.record_completion` from diligence_ledger.py lines
62-134: computes the quality multiplier and the accrued NECTAR, appends the
record, and updates the per-agent running totals in the same operation
(inserting a zero entry first when the agent is new, exactly as lines
110-119 do).  The returned display dictionary of lines 128-134 (values
rounded for logging) is presentation-only and not part of the state; the
embedding returns the appended record instead.  `_save` (line 122) is
persistence of this same state and has no further effect on it. -/
def record_completion (st : LedgerState) (now : Nat) (agent_name : String)
    (task : TaskRef) (hours_worked : ℚ) (quality_score : ℚ := 1)
    (tested : Bool := false) (wellness_approved : Bool := false)
    (cross_repo : Bool := false) (documented : Bool := false) :
    LedgerState × NectarAccrualRecord :=
  let multiplier := quality_score
  let multiplier := if tested then multiplier * 2 else multiplier
  let multiplier := if wellness_approved then multiplier * (3/2) else multiplier
  let multiplier := if cross_repo then multiplier * 2 else multiplier
  let multiplier := if documented then multiplier * (13/10) else multiplier
  let base_rate : ℚ := 10
  let nectar := hours_worked * base_rate * multiplier
  let record : NectarAccrualRecord :=
    { agent_name := agent_name
      task_id := task.id
      task_title := task.title
      repo := task.repo
      hours_worked := hours_worked
      base_rate := base_rate
      quality_multiplier := multiplier
      nectar_accrued := nectar
      timestamp := now
      blockchain_eligible := true }
  let base := (lookupTotals st.agent_totals agent_name).getD ⟨0, 0, 0⟩
  let newTotals : AgentTotals :=
    { total_nectar := base.total_nectar + nectar
      total_hours := base.total_hours + hours_worked
      tasks_completed := base.tasks_completed + 1 }
  ({ records := st.records ++ [record]
     agent_totals := setTotals st.agent_totals agent_name newTotals },
   record)

/-- Ledger states reachable from a freshly created, empty ledger through
`record_completion` calls. -/
inductive LedgerReachable : LedgerState → Prop
  | empty : LedgerReachable ⟨[], []⟩
  | step (st : LedgerState) (now : Nat) (agent : String) (task : TaskRef)
      (hours q : ℚ) (t w c d : Bool) :
      LedgerReachable st →
      LedgerReachable (record_completion st now agent task hours q t w c d).1

/-- Sum of `nectar_accrued` over the records of one agent. -/
def sumNectar (rs : List NectarAccrualRecord) (a : String) : ℚ :=
  ((rs.filter (fun r => r.agent_name == a)).map
    (fun r => r.nectar_accrued)).sum

/-- Sum of `hours_worked` over the records of one agent. -/
def sumHours (rs : List NectarAccrualRecord) (a : String) : ℚ :=
  ((rs.filter (fun r => r.agent_name == a)).map
    (fun r => r.hours_worked)).sum

/-- Number of records of one agent. -/
def countAgentTasks (rs : List NectarAccrualRecord) (a : String) : Nat :=
  (rs.filter (fun r => r.agent_name == a)).length

/-- The stored totals of an agent (zeros when the agent has no entry,
matching `get_agent_summary`, diligence_ledger.py lines 138-144). -/
def totalsOf (st : LedgerState) (a : String) : AgentTotals :=
  (lookupTotals st.agent_totals a).getD ⟨0, 0, 0⟩

theorem lookupTotals_setTotals_self (l : List (String × AgentTotals))
    (k : String) (v : AgentTotals) :
    lookupTotals (setTotals l k v) k = some v := by
  induction l with
  | nil => simp [setTotals, lookupTotals]
  | cons hd tl ih =>
    obtain ⟨k', w⟩ := hd
    by_cases h : k' = k
    · simp [setTotals, lookupTotals, h]
    · simp [setTotals, lookupTotals, h, ih]

theorem lookupTotals_setTotals_ne {k a : String} (h : k ≠ a)
    (l : List (String × AgentTotals)) (v : AgentTotals) :
    lookupTotals (setTotals l k v) a = lookupTotals l a := by
  induction l with
  | nil => simp [setTotals, lookupTotals, h]
  | cons hd tl ih =>
    obtain ⟨k', w⟩ := hd
    by_cases h' : k' = k
    · subst h'
      simp [setTotals, lookupTotals, h]
    · simp [setTotals, lookupTotals, h', ih]

/-- Claim C4: starting from an empty ledger, after any sequence of
`record_completion` calls the stored per-agent totals (`total_nectar`,
`total_hours`, `tasks_completed`) equal the per-agent sums over the record
list; the totals are maintained by `record_completion` itself. -/
theorem claim_C4_ledger_totals (st : LedgerState) (h : LedgerReachable st)
    (a : String) :
    (totalsOf st a).total_nectar = sumNectar st.records a ∧
    (totalsOf st a).total_hours = sumHours st.records a ∧
    (totalsOf st a).tasks_completed = countAgentTasks st.records a := by
  induction h with
  | empty =>
    simp [totalsOf, lookupTotals, sumNectar, sumHours, countAgentTasks]
  | step st now agent task hours q t w c d _ ih =>
    obtain ⟨ih1, ih2, ih3⟩ := ih
    by_cases hagent : agent = a
    · subst hagent
      simp only [totalsOf, record_completion, lookupTotals_setTotals_self,
        Option.getD_some, sumNectar, sumHours, countAgentTasks,
        List.filter_append, List.map_append, List.sum_append,
        List.length_append]
      simp only [totalsOf] at ih1 ih2 ih3
      refine ⟨?_, ?_, ?_⟩ <;>
        simp [List.filter, ih1, ih2, ih3, sumNectar, sumHours,
          countAgentTasks]
    · have hbeq : (agent == a) = false := by
        simpa using hagent
      simp only [totalsOf, record_completion,
        lookupTotals_setTotals_ne hagent, sumNectar, sumHours,
        countAgentTasks, List.filter_append]
      simp only [totalsOf] at ih1 ih2 ih3
      refine ⟨?_, ?_, ?_⟩ <;>
        simp [List.filter, hbeq, ih1, ih2, ih3, sumNectar, sumHours,
          countAgentTasks]

/-- A small concrete ledger obtained by two `record_completion` calls. -/
def demoLedger : LedgerState :=
  (record_completion
    (record_completion ⟨[], []⟩ 0 "veda" ⟨"t1", "T1", "pollen"⟩ 2 1
      true false false false).1
    1 "veda" ⟨"t2", "T2", "hive-api"⟩ 3 (1/2) false true false true).1

/-- Witness for claim C4 on a concrete reachable ledger. -/
theorem claim_C4_witness :
    (totalsOf demoLedger "veda").total_nectar =
        sumNectar demoLedger.records "veda" ∧
    (totalsOf demoLedger "veda").total_hours =
        sumHours demoLedger.records "veda" ∧
    (totalsOf demoLedger "veda").tasks_completed =
        countAgentTasks demoLedger.records "veda" :=
  claim_C4_ledger_totals demoLedger
    (LedgerReachable.step _ 1 "veda" ⟨"t2", "T2", "hive-api"⟩ 3 (1/2)
      false true false true
      (LedgerReachable.step _ 0 "veda" ⟨"t1", "T1", "pollen"⟩ 2 1
        true false false false
        LedgerReachable.empty))
    "veda"

/-- Claim C9: for every input combination `record_completion` computes
`quality_multiplier = quality_score × (2 if tested) × (1.5 if
wellness_approved) × (2 if cross_repo) × (1.3 if documented)` and
`nectar_accrued = hours_worked × 10 × quality_multiplier`, and appends a
record storing exactly these values. -/
theorem claim_C9_record_completion (st : LedgerState) (now : Nat)
    (agent : String) (task : TaskRef) (hours q : ℚ) (t w c d : Bool) :
    (record_completion st now agent task hours q t w c d).2.quality_multiplier
        = q * (if t then 2 else 1) * (if w then 3/2 else 1) *
          (if c then 2 else 1) * (if d then 13/10 else 1) ∧
    (record_completion st now agent task hours q t w c d).2.nectar_accrued
        = hours * 10 *
          (record_completion st now agent task hours q t w c d).2.quality_multiplier ∧
    (record_completion st now agent task hours q t w c d).2.hours_worked = hours ∧
    (record_completion st now agent task hours q t w c d).1.records
        = st.records ++ [(record_completion st now agent task hours q t w c d).2] := by
  refine ⟨?_, ?_, ?_, ?_⟩
  · cases t <;> cases w <;> cases c <;> cases d <;>
      simp [record_completion]
  · simp [record_completion]
  · simp [record_completion]
  · simp [record_completion]

/-! ## agents/base_agent.py -/

/-- `AgentStatus` from base_agent.py lines 24-31. -/
inductive AgentStatus where
  | IDLE
  | WORKING
  | DELIBERATING
  | REVIEWING
  | RECOVERY
  | OFFLINE
deriving DecidableEq, Repr

/-- `TaskPriority` from base_agent.py lines 34-39. -/
inductive TaskPriority where
  | CRITICAL
  | HIGH
  | NORMAL
  | LOW
deriving DecidableEq, Repr

/-- Wellness-threshold constants of `AgentBiometrics`
(base_agent.py lines 53-58). -/
def MAX_CONCURRENT_TASKS : Int := 3

def MAX_HOURS_PER_DAY : ℚ := 8

def BREAK_INTERVAL_HOURS : ℚ := 4

def STRESS_THRESHOLD : ℚ := 7/10

/-- `AgentBiometrics` from base_agent.py lines 42-58; timestamps are
seconds on an abstract clock. -/
structure AgentBiometrics where
  stress_level : ℚ := 0
  cognitive_load : ℚ := 0
  concurrent_tasks : Int := 0
  hours_worked_today : ℚ := 0
  last_break_timestamp : ℚ := 0
  last_rest_timestamp : ℚ := 0
  current_status : AgentStatus := AgentStatus.IDLE
deriving DecidableEq, Repr

/-- `AgentBiometrics.needs_break` from base_agent.py lines 60-63. -/
def needs_break (b : AgentBiometrics) (now : ℚ) : Bool :=
  decide ((now - b.last_break_timestamp) / 3600 ≥ BREAK_INTERVAL_HOURS)

/-- `AgentBiometrics.needs_rest` from base_agent.py lines 65-71. -/
def needs_rest (b : AgentBiometrics) : Bool :=
  decide (b.stress_level > STRESS_THRESHOLD ∨
    b.hours_worked_today ≥ MAX_HOURS_PER_DAY ∨
    b.cognitive_load > 4/5)

/-- `AgentBiometrics.can_accept_task` from base_agent.py lines 73-81. -/
def can_accept_task (b : AgentBiometrics) : Bool :=
  if b.concurrent_tasks ≥ MAX_CONCURRENT_TASKS then false
  else if needs_rest b then false
  else if b.current_status = AgentStatus.RECOVERY then false
  else true

/-- `Task` from base_agent.py lines 97-112. -/
structure Task where
  id : String
  title : String
  description : String
  repo : String
  priority : TaskPriority
  estimated_hours : ℚ
  dependencies : List String := []
  assigned_at : Option ℚ := none
  started_at : Option ℚ := none
  completed_at : Option ℚ := none
  status : String := "pending"
  nectar_accrued : ℚ := 0
  quality_score : ℚ := 1
deriving DecidableEq, Repr

/-- Python dict read over a `str → α` dict embedded as an association
list. -/
def alistLookup {α : Type} : List (String × α) → String → Option α
  | [], _ => none
  | (k, v) :: rest, a => if k = a then some v else alistLookup rest a

/-- Python dict write: update in place when the key exists, append
otherwise. -/
def alistSet {α : Type} : List (String × α) → String → α →
    List (String × α)
  | [], a, v => [(a, v)]
  | (k, w) :: rest, a, v =>
    if k = a then (k, v) :: rest else (k, w) :: alistSet rest a v

/-- The mutable state of a `BaseAgent` (base_agent.py lines 138-170).
`current_task` holds the id of the task object the Python field references.
The event callbacks (`on_status_change`, `on_task_complete`) and the logger
are effect hooks with no bearing on this state and are not modelled. -/
structure BaseAgentState where
  name : String
  specialization : String
  capabilities : List String
  hexagonal_position : Nat
  biometrics : AgentBiometrics := {}
  tasks : List (String × Task) := []
  task_history : List Task := []
  current_task : Option String := none
  total_hours_worked : ℚ := 0
  total_nectar_accrued : ℚ := 0
  deliberation_notes : List String := []
deriving Repr

/-- A freshly constructed agent (`BaseAgent.__init__`,
base_agent.py lines 138-170) at abstract creation time `now`. -/
def mkBaseAgent (name specialization : String) (capabilities : List String)
    (hexagonal_position : Nat) (now : ℚ) : BaseAgentState :=
  { name := name
    specialization := specialization
    capabilities := capabilities
    hexagonal_position := hexagonal_position
    biometrics := { last_break_timestamp := now, last_rest_timestamp := now } }

/-- `BaseAgent.assign_task` from base_agent.py lines 216-240: refused (state
unchanged) unless `can_accept_task`; otherwise stores the task as pending
and increments `concurrent_tasks`. -/
def assign_task (ag : BaseAgentState) (task : Task) (now : ℚ) :
    BaseAgentState × Bool :=
  if can_accept_task ag.biometrics then
    let task := { task with assigned_at := some now, status := "pending" }
    ({ ag with
        tasks := alistSet ag.tasks task.id task
        biometrics :=
          { ag.biometrics with
              concurrent_tasks := ag.biometrics.concurrent_tasks + 1 } },
     true)
  else
    (ag, false)

/-- `BaseAgent.start_task` from base_agent.py lines 242-254. -/
def start_task (ag : BaseAgentState) (task_id : String) (now : ℚ) :
    BaseAgentState × Bool :=
  match alistLookup ag.tasks task_id with
  | none => (ag, false)
  | some task =>
    let task := { task with started_at := some now, status := "in_progress" }
    ({ ag with
        tasks := alistSet ag.tasks task_id task
        current_task := some task_id
        biometrics :=
          { ag.biometrics with current_status := AgentStatus.WORKING } },
     true)

/-- The completion report built by `BaseAgent.complete_task`
(base_agent.py lines 307-316); the Python values rounded for display are
kept exact here. -/
structure CompletionReport where
  agent : String
  task_id : String
  task_title : String
  duration_hours : ℚ
  quality_score : ℚ
  nectar_accrued : ℚ
  total_accrued : ℚ
deriving DecidableEq, Repr

/-- `BaseAgent.complete_task` from base_agent.py lines 256-326: `none`
stands for the `{"error": "Task not found"}` early return.  The task object
is mutated in place (so the entry in `tasks` is updated and the same object
is appended to `task_history`), `concurrent_tasks` is decremented, hours
and cognitive load updated, and NECTAR accrued at 10 per hour times the
quality score. -/
def complete_task (ag : BaseAgentState) (task_id : String) (now : ℚ)
    (quality_score : ℚ := 1) : BaseAgentState × Option CompletionReport :=
  match alistLookup ag.tasks task_id with
  | none => (ag, none)
  | some task =>
    let task := { task with
        completed_at := some now
        status := "completed"
        quality_score := quality_score }
    let duration :=
      match task.started_at with
      | some s => (now - s) / 3600
      | none => task.estimated_hours
    let b := ag.biometrics
    let b := { b with
        concurrent_tasks := b.concurrent_tasks - 1
        hours_worked_today := b.hours_worked_today + duration
        cognitive_load := max 0 (b.cognitive_load - 1/5) }
    let b :=
      if b.concurrent_tasks = 0 then
        { b with current_status := AgentStatus.IDLE }
      else b
    let current_task :=
      if b.concurrent_tasks = 0 then none else ag.current_task
    let base_nectar : ℚ := 10 * duration
    let task := { task with nectar_accrued := base_nectar * quality_score }
    let report : CompletionReport :=
      { agent := ag.name
        task_id := task_id
        task_title := task.title
        duration_hours := duration
        quality_score := quality_score
        nectar_accrued := task.nectar_accrued
        total_accrued := ag.total_nectar_accrued + task.nectar_accrued }
    ({ ag with
        tasks := alistSet ag.tasks task_id task
        task_history := ag.task_history ++ [task]
        current_task := current_task
        biometrics := b
        total_hours_worked := ag.total_hours_worked + duration
        total_nectar_accrued := ag.total_nectar_accrued + task.nectar_accrued },
     some report)

/-- `BaseAgent.take_break` from base_agent.py lines 328-343 (the simulated
sleep is time-free here). -/
def take_break (ag : BaseAgentState) (now : ℚ) : BaseAgentState :=
  let b := { ag.biometrics with
      current_status := AgentStatus.RECOVERY
      last_break_timestamp := now }
  let b := { b with
      stress_level := max 0 (b.stress_level - 3/10)
      cognitive_load := max 0 (b.cognitive_load - 3/10) }
  let b :=
    if can_accept_task b then { b with current_status := AgentStatus.IDLE }
    else b
  { ag with biometrics := b }

/-- `BaseAgent.rest` from base_agent.py lines 345-357. -/
def rest (ag : BaseAgentState) (now : ℚ) : BaseAgentState :=
  { ag with biometrics := { ag.biometrics with
      current_status := AgentStatus.RECOVERY
      stress_level := 0
      cognitive_load := 0
      last_rest_timestamp := now } }

/-- Agent states reachable from a freshly created agent through the public
operations. -/
inductive AgentReachable : BaseAgentState → Prop
  | init (name specialization : String) (capabilities : List String)
      (pos : Nat) (now : ℚ) :
      AgentReachable (mkBaseAgent name specialization capabilities pos now)
  | assign (ag : BaseAgentState) (task : Task) (now : ℚ) :
      AgentReachable ag → AgentReachable (assign_task ag task now).1
  | start (ag : BaseAgentState) (task_id : String) (now : ℚ) :
      AgentReachable ag → AgentReachable (start_task ag task_id now).1
  | complete (ag : BaseAgentState) (task_id : String) (now q : ℚ) :
      AgentReachable ag → AgentReachable (complete_task ag task_id now q).1
  | tbreak (ag : BaseAgentState) (now : ℚ) :
      AgentReachable ag → AgentReachable (take_break ag now)
  | rst (ag : BaseAgentState) (now : ℚ) :
      AgentReachable ag → AgentReachable (rest ag now)

/-- Claim C3: in every reachable agent state `concurrent_tasks ≤ 3`
(`MAX_CONCURRENT_TASKS`); `assign_task` leaves the state unchanged when
`can_accept_task` is false, and `can_accept_task` requires
`concurrent_tasks < 3`. -/
theorem claim_C3_concurrent_bound :
    (∀ ag : BaseAgentState, AgentReachable ag →
      ag.biometrics.concurrent_tasks ≤ MAX_CONCURRENT_TASKS) ∧
    (∀ (ag : BaseAgentState) (task : Task) (now : ℚ),
      can_accept_task ag.biometrics = false →
      assign_task ag task now = (ag, false)) ∧
    (∀ b : AgentBiometrics, can_accept_task b = true →
      b.concurrent_tasks < MAX_CONCURRENT_TASKS) := by
  have hlt : ∀ b : AgentBiometrics, can_accept_task b = true →
      b.concurrent_tasks < MAX_CONCURRENT_TASKS := by
    intro b h
    by_contra hge
    push_neg at hge
    simp [can_accept_task, hge] at h
  refine ⟨?_, ?_, hlt⟩
  · intro ag h
    induction h with
    | init name specialization capabilities pos now =>
      simp [mkBaseAgent, MAX_CONCURRENT_TASKS]
    | assign ag task now _ ih =>
      by_cases hc : can_accept_task ag.biometrics = true
      · have := hlt ag.biometrics hc
        simp only [assign_task, hc, if_true]
        omega
      · simp only [Bool.not_eq_true] at hc
        simp [assign_task, hc, ih]
    | start ag task_id now _ ih =>
      cases hl : alistLookup ag.tasks task_id with
      | none => simpa [start_task, hl] using ih
      | some task => simpa [start_task, hl] using ih
    | complete ag task_id now q _ ih =>
      cases hl : alistLookup ag.tasks task_id with
      | none => simpa [complete_task, hl] using ih
      | some task =>
        simp only [complete_task, hl]
        split <;> simp <;> omega
    | tbreak ag now _ ih =>
      by_cases hc : can_accept_task { ag.biometrics with
          current_status := AgentStatus.RECOVERY
          last_break_timestamp := now
          stress_level := max 0 (ag.biometrics.stress_level - 3/10)
          cognitive_load := max 0 (ag.biometrics.cognitive_load - 3/10) } = true
      · simpa [take_break, hc] using ih
      · simp only [Bool.not_eq_true] at hc
        simpa [take_break, hc] using ih
    | rst ag now _ ih =>
      simpa [rest] using ih
  · intro ag task now h
    simp [assign_task, h]

/-- Witness for claim C3 at a concrete reachable state (an agent that just
accepted one task). -/
theorem claim_C3_witness :
    ((assign_task (mkBaseAgent "veda" "backend" [] 0 0)
        { id := "t1", title := "T1", description := "d", repo := "pollen",
          priority := TaskPriority.HIGH, estimated_hours := 4 } 0).1
      ).biometrics.concurrent_tasks ≤ MAX_CONCURRENT_TASKS :=
  claim_C3_concurrent_bound.1 _
    (AgentReachable.assign _ _ 0
      (AgentReachable.init "veda" "backend" [] 0 0))

/-! ## The six concrete agents and their `can_handle_task` scoring

Python `keyword in description.lower()` is a substring test on the
lowercased description; `.lower()` on the ASCII keyword data involved is
character-wise lowercasing. -/

/-- Character-wise lowercasing, the effect of Python `str.lower()` on the
strings this repository routes. -/
def lowerChars (s : List Char) : List Char :=
  s.map Char.toLower

/-- Python `needle in haystack` substring test. -/
def isSubstring (needle : String) (hay : List Char) : Bool :=
  hay.tails.any (fun t => needle.toList.isPrefixOf t)

/-- Python `sum(1 for keyword in kws if keyword in d)`. -/
def keywordMatchCount (kws : List String) (d : List Char) : Nat :=
  (kws.filter (fun k => isSubstring k d)).length

/-- `VedaAgent.SPECIALIZATION_KEYWORDS` (veda.py lines 51-56). -/
def VEDA_KEYWORDS : List String :=
  ["backend", "api", "server", "database", "algorithm",
   "python", "node", "typescript", "logic", "core",
   "architecture", "schema", "migration", "orm",
   "microservice", "docker", "kubernetes", "infrastructure"]

/-- `VedaAgent.can_handle_task` (veda.py lines 72-98). -/
def veda_can_handle_task (task_description : String) : ℚ :=
  let d := lowerChars task_description.toList
  let numMatches : ℚ := (keywordMatchCount VEDA_KEYWORDS d : ℚ)
  let confidence := min 1 (numMatches / 3)
  let confidence :=
    if ["api", "backend", "server", "database"].any (fun t => isSubstring t d)
    then min 1 (confidence + 3/10) else confidence
  let confidence :=
    if ["ui", "frontend", "css", "react component"].any (fun t => isSubstring t d)
    then confidence * (3/10) else confidence
  confidence

/-- `AuraAgent.SPECIALIZATION_KEYWORDS` (aura.py lines 69-73). -/
def AURA_KEYWORDS : List String :=
  ["review", "validate", "audit", "test", "check",
   "wellness", "health", "stress", "calm", "accessibility",
   "documentation", "quality", "safety", "compliance"]

/-- `AuraAgent.can_handle_task` (aura.py lines 108-125). -/
def aura_can_handle_task (task_description : String) : ℚ :=
  let d := lowerChars task_description.toList
  let numMatches : ℚ := (keywordMatchCount AURA_KEYWORDS d : ℚ)
  let confidence := min 1 (numMatches / 2)
  let confidence :=
    if ["review", "validate", "audit"].any (fun t => isSubstring t d)
    then min 1 (confidence + 4/10) else confidence
  confidence

/-- `HexAgent.SPECIALIZATION_KEYWORDS` (hex.py lines 89-92). -/
def HEX_KEYWORDS : List String :=
  ["nectar", "token", "economic", "diligence", "ledger",
   "accrual", "reward", "compensation", "blockchain", "genesis"]

/-- `HexAgent.can_handle_task` (hex.py lines 115-124). -/
def hex_can_handle_task (task_description : String) : ℚ :=
  let d := lowerChars task_description.toList
  let numMatches : ℚ := (keywordMatchCount HEX_KEYWORDS d : ℚ)
  min 1 (numMatches / 2)

/-- `NodeAgent.SPECIALIZATION_KEYWORDS` (node.py lines 56-60). -/
def NODE_KEYWORDS : List String :=
  ["docker", "kubernetes", "k8s", "devops", "ci/cd", "pipeline",
   "integration", "bridge", "api", "service", "port", "container",
   "deployment", "orchestration", "health", "monitoring"]

/-- `NodeAgent.can_handle_task` (node.py lines 86-101). -/
def node_can_handle_task (task_description : String) : ℚ :=
  let d := lowerChars task_description.toList
  let numMatches : ℚ := (keywordMatchCount NODE_KEYWORDS d : ℚ)
  let confidence := min 1 (numMatches / 3)
  let confidence :=
    if isSubstring "bridge" d || isSubstring "integration" d
    then min 1 (confidence + 4/10) else confidence
  confidence

/-- `SparkAgent.SPECIALIZATION_KEYWORDS` (spark.py lines 52-56). -/
def SPARK_KEYWORDS : List String :=
  ["frontend", "ui", "ux", "design", "css", "react", "vue",
   "component", "interface", "visual", "creative", "documentation",
   "template", "html", "responsive", "calm", "accessible"]

/-- `SparkAgent.can_handle_task` (spark.py lines 101-120). -/
def spark_can_handle_task (task_description : String) : ℚ :=
  let d := lowerChars task_description.toList
  let numMatches : ℚ := (keywordMatchCount SPARK_KEYWORDS d : ℚ)
  let confidence := min 1 (numMatches / 2)
  let confidence :=
    if ["design", "ui", "ux", "creative"].any (fun t => isSubstring t d)
    then min 1 (confidence + 4/10) else confidence
  let confidence :=
    if ["backend", "database", "algorithm"].any (fun t => isSubstring t d)
    then confidence * (2/10) else confidence
  confidence

/-- `TessAgent.SPECIALIZATION_KEYWORDS` (tess.py lines 73-77). -/
def TESS_KEYWORDS : List String :=
  ["coordinate", "facilitate", "chair", "optimize", "balance",
   "timeline", "dependency", "conflict", "topology", "distribute",
   "manage", "resolve", "plan", "architecture"]

/-- `TessAgent.can_handle_task` (tess.py lines 95-110). -/
def tess_can_handle_task (task_description : String) : ℚ :=
  let d := lowerChars task_description.toList
  let numMatches : ℚ := (keywordMatchCount TESS_KEYWORDS d : ℚ)
  let confidence := min 1 (numMatches / 2)
  let confidence :=
    if ["coordinate", "plan", "chair", "manage"].any (fun t => isSubstring t d)
    then min 1 (confidence + 4/10) else confidence
  confidence

/-- A briefing document as read by the council
(`briefing.get("critical_path", [])` and the `protected_notice` key). -/
structure Briefing where
  critical_path : List String := []
  protected_notice : Option String := none
deriving DecidableEq, Repr

/-- One concern dict of `_validate_deliberation_wellness`
(convening.py lines 416-430).  The Python message interpolates the computed
hour total into its display text; the static text is kept. -/
structure WellnessConcern where
  type : String
  agent : Option String := none
  message : String
  suggestion : Option String := none
deriving DecidableEq, Repr

/-- The veto declaration built by `AuraAgent.veto_proposal`
(aura.py lines 216-260); the long display message of lines 239-249 is
presentation text assembled from these same fields. -/
structure VetoDeclaration where
  authority : String
  proposal : Option String
  veto_timestamp : Nat
  reasons : List WellnessConcern
  can_override : Bool
  requires_redesign : Bool
deriving DecidableEq, Repr

/-- A council agent: the shared `BaseAgent` state plus the concrete
subclass's `can_handle_task` override, the stored `sofie_briefing`, and
(for aura) the `vetoes_issued` log. -/
structure CouncilAgent where
  base : BaseAgentState
  conf : String → ℚ
  sofie_briefing : Option Briefing := none
  vetoes_issued : List VetoDeclaration := []

/-- `BaseAgent.receive_briefing` (base_agent.py lines 198-202). -/
def receive_briefing (ag : CouncilAgent) (briefing : Briefing) : CouncilAgent :=
  { ag with
      sofie_briefing := some briefing
      base := { ag.base with deliberation_notes := [] } }

/-- `create_council` from agents/__init__.py lines 46-61: the six agents in
insertion order, at abstract creation time `now`; each entry pairs the
`__init__` data of the concrete class with its `can_handle_task`. -/
def create_council (now : ℚ) : List (String × CouncilAgent) :=
  [("veda",
    { base := mkBaseAgent "veda" "Backend Architecture & Complex Systems"
        ["backend_development", "api_design", "database_schema",
         "algorithm_implementation", "code_refactoring", "test_writing",
         "python", "nodejs", "typescript", "sql", "docker", "microservices"]
        0 now
      conf := veda_can_handle_task }),
   ("aura",
    { base := mkBaseAgent "aura" "Wellness Validation & QA with Absolute Veto"
        ["wellness_validation", "code_review", "accessibility_audit",
         "stress_pattern_detection", "documentation_review",
         "dark_pattern_detection", "biometric_impact_assessment",
         "calm_architecture_validation", "veto_power"]
        1 now
      conf := aura_can_handle_task }),
   ("hex",
    { base := mkBaseAgent "hex" "NECTAR Diligence Tracking & Tokenomics"
        ["nectar_tracking", "accrual_calculation", "genesis_preparation",
         "diligence_reporting", "economic_modeling",
         "consensus_participation", "ledger_maintenance"]
        2 now
      conf := hex_can_handle_task }),
   ("node",
    { base := mkBaseAgent "node" "DevOps & API Bridge Development"
        ["docker", "kubernetes", "cicd", "microservices", "api_integration",
         "devops", "service_mesh", "load_balancing", "health_checks",
         "port_management", "bridge_development"]
        3 now
      conf := node_can_handle_task }),
   ("spark",
    { base := mkBaseAgent "spark" "Frontend, UI/UX & Calm Architecture"
        ["frontend_development", "ui_design", "ux_design", "css_architecture",
         "react", "vue", "html", "creative_writing", "documentation",
         "visual_design", "calm_architecture", "accessibility",
         "responsive_design"]
        4 now
      conf := spark_can_handle_task }),
   ("tess",
    { base := mkBaseAgent "tess" "Council Chair & Systems Architecture"
        ["meeting_facilitation", "task_optimization", "load_balancing",
         "dependency_management", "timeline_estimation",
         "conflict_resolution", "hexagonal_topology",
         "cross_repo_coordination", "technical_debt_tracking",
         "chair_authority"]
        5 now
      conf := tess_can_handle_task })]

/-! ## tess.py: deliberation, optimisation, redistribution -/

/-- One contender entry built in `facilitate_deliberation`
(tess.py lines 199-203). -/
structure Contender where
  agent : String
  confidence : ℚ
  available : Bool
deriving DecidableEq, Repr

/-- One proposal entry built in `facilitate_deliberation`
(tess.py lines 227-232). -/
structure RouteProposal where
  task : String
  assigned_to : String
  confidence : ℚ
  alternatives : List String
deriving DecidableEq, Repr

/-- One conflict entry built in `facilitate_deliberation`
(tess.py lines 211-215). -/
structure RouteConflict where
  task : String
  between : List String
  resolution : String
deriving DecidableEq, Repr

/-- The contender list for one critical-path task description
(tess.py lines 195-203): the agents, in council order, whose confidence
exceeds the `0.3` consideration threshold. -/
def contendersFor (agents : List (String × CouncilAgent)) (task_desc : String) :
    List Contender :=
  agents.filterMap (fun p =>
    let confidence := p.2.conf task_desc
    if confidence > 3/10 then
      some { agent := p.1
             confidence := confidence
             available := can_accept_task p.2.base.biometrics }
    else none)

/-- The contender list after `contenders.sort(key=confidence, reverse=True)`
(tess.py line 206).  Python's sort is stable, and a stable sort's output is
uniquely determined by the key order, so the stable insertion sort is the
same function as CPython's Timsort here. -/
def sortedContendersFor (agents : List (String × CouncilAgent))
    (task_desc : String) : List Contender :=
  (contendersFor agents task_desc).insertionSort
    (fun a b => b.confidence ≤ a.confidence)

/-- The per-task body of the deliberation loop
(tess.py lines 190-232): pick the best agent, falling back to `"veda"` when
no contender clears the threshold, and record a conflict when the top two
contenders are closer than the `0.2` margin. -/
def routeTask (agents : List (String × CouncilAgent)) (task_desc : String) :
    RouteProposal × Option RouteConflict :=
  match sortedContendersFor agents task_desc with
  | [] =>
    ({ task := task_desc, assigned_to := "veda", confidence := 3/10,
       alternatives := [] }, none)
  | [c] =>
    ({ task := task_desc, assigned_to := c.agent, confidence := c.confidence,
       alternatives := [] }, none)
  | c0 :: c1 :: rest =>
    let proposal : RouteProposal :=
      { task := task_desc, assigned_to := c0.agent,
        confidence := c0.confidence,
        alternatives := (c1 :: rest).map (fun c => c.agent) }
    if c0.confidence - c1.confidence < 2/10 then
      (proposal,
       some { task := task_desc, between := [c0.agent, c1.agent],
              resolution := "tess_decides" })
    else
      (proposal, none)

/-- The result of `facilitate_deliberation`. -/
structure DeliberationOutcome where
  proposals : List RouteProposal
  conflicts : List RouteConflict
deriving DecidableEq, Repr

/-- `TessAgent.facilitate_deliberation` (tess.py lines 168-252): routes each
critical-path item of the first agent's stored briefing.  The
`DeliberationRecord` appended to Tess's `deliberation_history`
(lines 235-244) is a log entry no later computation reads and is not part
of this state. -/
def facilitate_deliberation (agents : List (String × CouncilAgent)) :
    DeliberationOutcome :=
  let briefing :=
    match agents with
    | [] => ({} : Briefing)
    | (_, a) :: _ => a.sofie_briefing.getD {}
  let results := briefing.critical_path.map (routeTask agents)
  { proposals := results.map (fun r => r.1)
    conflicts := results.filterMap (fun r => r.2) }

/-- One entry of the `agent_loads` dict (tess.py lines 272-279). -/
structure AgentLoad where
  current_tasks : Int
  max_tasks : Int
  stress : ℚ
  available_capacity : Int
deriving DecidableEq, Repr

/-- The initial `agent_loads` dict of `optimize_distribution`
(tess.py lines 272-279). -/
def initLoads (agents : List (String × CouncilAgent)) :
    List (String × AgentLoad) :=
  agents.map (fun p =>
    (p.1,
     { current_tasks := p.2.base.biometrics.concurrent_tasks
       max_tasks := MAX_CONCURRENT_TASKS
       stress := p.2.base.biometrics.stress_level
       available_capacity :=
         MAX_CONCURRENT_TASKS - p.2.base.biometrics.concurrent_tasks }))

/-- One assignment dict as built by `optimize_distribution`
(tess.py lines 288-317); keys that a given branch does not set are `none`. -/
structure Assignment where
  agent : String
  task : String
  estimated_hours : Option ℚ := none
  repo : Option String := none
  redistributed_from : Option String := none
  reason : Option String := none
  status : Option String := none
  depends_on : Option (List String) := none
deriving DecidableEq, Repr

/-- `TessAgent._estimate_hours` (tess.py lines 510-518). -/
def estimate_hours (task : String) : ℚ :=
  let t := lowerChars task.toList
  if isSubstring "simple" t || isSubstring "docs" t then 4
  else if isSubstring "complex" t || isSubstring "architecture" t then 16
  else 8

/-- `TessAgent._determine_repo` (tess.py lines 520-531). -/
def determine_repo (task : String) : String :=
  let t := lowerChars task.toList
  if isSubstring "wellness" t then "pollen"
  else if isSubstring "bridge" t || isSubstring "api" t then "terracare-bridge"
  else if isSubstring "hive" t then "hive-api"
  else "sandironratio-node"

/-- The hardcoded `neighbor_map` of `_redistribute_to_neighbor`
(tess.py lines 344-351). -/
def neighbor_map : List (String × List String) :=
  [("veda", ["tess", "aura"]),
   ("aura", ["veda", "hex"]),
   ("hex", ["aura", "node"]),
   ("node", ["hex", "spark"]),
   ("spark", ["node", "tess"]),
   ("tess", ["spark", "veda"])]

/-- The `available_capacity` of one agent in the loads dict.  In the Python
source the lookup is a direct subscription (`agent_loads[name]`); every
call passes a loads dict built by `initLoads` from the same agents dict
whose membership was just checked, so the key is always present and the
`getD 0` default is unreachable there. -/
def availOf (loads : List (String × AgentLoad)) (n : String) : Int :=
  ((alistLookup loads n).map (fun l => l.available_capacity)).getD 0

/-- The neighbor loop body of `_redistribute_to_neighbor`
(tess.py lines 356-375): skip neighbors absent from the agents dict, skip
neighbors without spare capacity, and return the first neighbor whose
confidence on the task exceeds the `0.3` threshold. -/
def redistributeLoop (agents : List (String × CouncilAgent))
    (loads : List (String × AgentLoad)) (task : String) :
    List String → Option String
  | [] => none
  | n :: rest =>
    match alistLookup agents n with
    | none => redistributeLoop agents loads task rest
    | some neighbor =>
      if availOf loads n ≤ 0 then redistributeLoop agents loads task rest
      else if neighbor.conf task > 3/10 then some n
      else redistributeLoop agents loads task rest

/-- `TessAgent._redistribute_to_neighbor` (tess.py lines 331-375). -/
def redistribute_to_neighbor (overloaded_agent task : String)
    (agents : List (String × CouncilAgent))
    (loads : List (String × AgentLoad)) : Option String :=
  redistributeLoop agents loads task
    ((alistLookup neighbor_map overloaded_agent).getD [])

/-- Decrement `agent_loads[n]["available_capacity"]`.  At its call site the
key is present (the chosen neighbor passed the positive-capacity check). -/
def decAvail (loads : List (String × AgentLoad)) (n : String) :
    List (String × AgentLoad) :=
  loads.map (fun p =>
    if p.1 = n then
      (p.1, { p.2 with available_capacity := p.2.available_capacity - 1 })
    else p)

/-- The per-proposal body of `optimize_distribution`
(tess.py lines 283-317): assign to the preferred agent while it has
capacity, otherwise try the ring neighbors, otherwise append the assignment
marked `"queued"`.  `none` is the Python `KeyError` raised by
`agent_loads[preferred]` when the proposal names an agent that is not in
the dict. -/
def processProposal (agents : List (String × CouncilAgent))
    (acc : List Assignment × List (String × AgentLoad))
    (proposal : RouteProposal) :
    Option (List Assignment × List (String × AgentLoad)) :=
  let assignments := acc.1
  let loads := acc.2
  let preferred := proposal.assigned_to
  let task := proposal.task
  match alistLookup loads preferred with
  | none => none
  | some load =>
    if load.available_capacity > 0 then
      some (assignments ++
        [{ agent := preferred, task := task,
           estimated_hours := some (estimate_hours task),
           repo := some (determine_repo task) }],
        alistSet loads preferred
          { load with available_capacity := load.available_capacity - 1 })
    else
      match redistribute_to_neighbor preferred task agents loads with
      | some alternative =>
        some (assignments ++
          [{ agent := alternative, task := task,
             estimated_hours := some (estimate_hours task),
             repo := some (determine_repo task),
             redistributed_from := some preferred,
             reason := some "preferred_agent_at_capacity" }],
          decAvail loads alternative)
      | none =>
        some (assignments ++
          [{ agent := preferred, task := task,
             status := some "queued",
             reason := some "waiting_for_capacity" }],
          loads)

/-- The proposal loop of `optimize_distribution`. -/
def processAll (agents : List (String × CouncilAgent)) :
    List RouteProposal → (List Assignment × List (String × AgentLoad)) →
    Option (List Assignment × List (String × AgentLoad))
  | [], acc => some acc
  | p :: ps, acc =>
    match processProposal agents acc p with
    | none => none
    | some acc' => processAll agents ps acc'

/-- The timeline summary of `_calculate_timeline` (tess.py lines 559-578);
the rounding applied for display is kept exact. -/
structure Timeline where
  total_hours : ℚ
  estimated_days : ℚ
  estimated_weeks : ℚ
deriving DecidableEq, Repr

/-- `TessAgent._calculate_timeline` (tess.py lines 559-578); every call
site passes a non-empty agents dict, so the division is by a positive
number. -/
def calculate_timeline (assignments : List Assignment)
    (agents : List (String × CouncilAgent)) : Timeline :=
  let total_hours := (assignments.map (fun a => a.estimated_hours.getD 4)).sum
  let max_concurrent : ℚ := (agents.length : ℚ)
  let estimated_days := max 1 (total_hours / (max_concurrent * 8))
  { total_hours := total_hours
    estimated_days := estimated_days
    estimated_weeks := estimated_days / 5 }

/-- The result of `optimize_distribution` (tess.py lines 322-329);
`redistributions` is the count of line 327 and `load_balance` the final
loads dict. -/
structure OptimizeResult where
  assignments : List Assignment
  timeline : Timeline
  redistributions : Nat
  load_balance : List (String × AgentLoad)
deriving DecidableEq, Repr

/-- `TessAgent.optimize_distribution` (tess.py lines 254-329). -/
def optimize_distribution (proposals : List RouteProposal)
    (agents : List (String × CouncilAgent)) : Option OptimizeResult :=
  match processAll agents proposals ([], initLoads agents) with
  | none => none
  | some (assignments, loads) =>
    some { assignments := assignments
           timeline := calculate_timeline assignments agents
           redistributions :=
             (assignments.filter (fun a => a.redistributed_from.isSome)).length
           load_balance := loads }

/-- `TessAgent._find_backend_tasks` (tess.py lines 533-539): the assignment
dicts carry no `task_id` key, so each hit contributes `.get("task_id", "")
= ""`. -/
def find_backend_tasks (assignments : List Assignment) : List String :=
  (assignments.filter (fun a => isSubstring "backend" (lowerChars a.task.toList))).map
    (fun _ => "")

/-- `TessAgent._find_component_tasks` (tess.py lines 541-547). -/
def find_component_tasks (assignments : List Assignment) : List String :=
  (assignments.filter (fun a =>
    ["component", "service", "api"].any
      (fun x => isSubstring x (lowerChars a.task.toList)))).map
    (fun _ => "")

/-- Python truthiness of `a.get("depends_on")`: both a missing key and an
empty list are falsy. -/
def hasDeps (a : Assignment) : Bool :=
  match a.depends_on with
  | some (_ :: _) => true
  | _ => false

/-- `TessAgent.coordinate_dependencies` (tess.py lines 377-403) followed by
`_topological_sort` (lines 549-557).  The dependency search only reads the
`task` field, which the in-place mutation never changes, so scanning the
input list is the same as Python's scan of the partially updated list. -/
def coordinate_dependencies (assignments : List Assignment) :
    List Assignment :=
  let updated := assignments.map (fun a =>
    let t := lowerChars a.task.toList
    let a :=
      if isSubstring "bridge" t || isSubstring "api" t then
        { a with depends_on := some (find_backend_tasks assignments) }
      else a
    let a :=
      if isSubstring "integration" t then
        { a with depends_on := some (find_component_tasks assignments) }
      else a
    a)
  updated.filter (fun a => !hasDeps a) ++ updated.filter hasDeps

/-- `TessAgent.convene_council` (tess.py lines 122-166), restricted to its
state effect: every agent receives the briefing.  The returned capacity
report and the `current_meeting` log entry are read by no computation the
claims touch. -/
def convene_council (sofie_briefing : Briefing)
    (agents : List (String × CouncilAgent)) :
    List (String × CouncilAgent) :=
  agents.map (fun p => (p.1, receive_briefing p.2 sofie_briefing))

instance : IsTotal Contender (fun a b => b.confidence ≤ a.confidence) :=
  ⟨fun a b => le_total b.confidence a.confidence⟩

instance : IsTrans Contender (fun a b => b.confidence ≤ a.confidence) :=
  ⟨fun _ _ _ hab hbc => le_trans hbc hab⟩

/-- The name of the council agent at each hexagonal position. -/
def councilNameAt : Nat → String
  | 0 => "veda"
  | 1 => "aura"
  | 2 => "hex"
  | 3 => "node"
  | 4 => "spark"
  | 5 => "tess"
  | _ => ""

/-- The qualification test the neighbor loop applies to one neighbor name:
present in the agents dict, spare capacity, confidence above `0.3`. -/
def neighborQualifies (agents : List (String × CouncilAgent))
    (loads : List (String × AgentLoad)) (task : String) (n : String) : Bool :=
  match alistLookup agents n with
  | none => false
  | some ag => decide (0 < availOf loads n) && decide (ag.conf task > 3/10)

/-- The neighbor loop returns the first qualifying neighbor, in list
order. -/
theorem redistributeLoop_eq_find (agents : List (String × CouncilAgent))
    (loads : List (String × AgentLoad)) (task : String) (ns : List String) :
    redistributeLoop agents loads task ns =
      ns.find? (neighborQualifies agents loads task) := by
  induction ns with
  | nil => rfl
  | cons n rest ih =>
    cases h : alistLookup agents n with
    | none =>
      simp [redistributeLoop, List.find?, neighborQualifies, h, ih]
    | some ag =>
      by_cases h2 : availOf loads n ≤ 0
      · have h2' : ¬ (0 < availOf loads n) := not_lt.mpr h2
        simp [redistributeLoop, List.find?, neighborQualifies, h, h2, h2', ih]
      · have h2' : (0 : Int) < availOf loads n := not_le.mp h2
        by_cases h3 : ag.conf task > 3/10
        · simp [redistributeLoop, List.find?, neighborQualifies, h, h2, h2', h3]
        · simp [redistributeLoop, List.find?, neighborQualifies, h, h2, h2', h3, ih]

/-- Claim C5: `_redistribute_to_neighbor` searches exactly the overloaded
agent's two ring neighbors (position `−1 mod 6` before position
`+1 mod 6`), returning the first with spare capacity and confidence above
the `0.3` threshold on the same task description, so a selected agent is
always ring-adjacent and qualifying; and when no neighbor qualifies,
`optimize_distribution` appends the assignment marked `"queued"` for the
preferred agent instead of dropping it. -/
theorem claim_C5_redistribution :
    (∀ (overloaded task : String) (agents : List (String × CouncilAgent))
        (loads : List (String × AgentLoad)),
      redistribute_to_neighbor overloaded task agents loads =
        ((alistLookup neighbor_map overloaded).getD []).find?
          (neighborQualifies agents loads task)) ∧
    (∀ (overloaded task : String) (agents : List (String × CouncilAgent))
        (loads : List (String × AgentLoad)) (nb : String),
      redistribute_to_neighbor overloaded task agents loads = some nb →
      nb ∈ (alistLookup neighbor_map overloaded).getD [] ∧
      0 < availOf loads nb ∧
      ∃ ag, alistLookup agents nb = some ag ∧ ag.conf task > 3/10) ∧
    (∀ p : Fin 6,
      alistLookup neighbor_map (councilNameAt p.val) =
        some [councilNameAt ((p.val + 5) % 6),
              councilNameAt ((p.val + 1) % 6)] ∧
      (alistLookup (create_council 0) (councilNameAt p.val)).map
          (fun a => a.base.hexagonal_position) = some p.val) ∧
    (∀ (agents : List (String × CouncilAgent))
        (acc : List Assignment × List (String × AgentLoad))
        (proposal : RouteProposal) (load : AgentLoad),
      alistLookup acc.2 proposal.assigned_to = some load →
      ¬ load.available_capacity > 0 →
      redistribute_to_neighbor proposal.assigned_to proposal.task agents
        acc.2 = none →
      processProposal agents acc proposal =
        some (acc.1 ++
          [{ agent := proposal.assigned_to, task := proposal.task,
             status := some "queued",
             reason := some "waiting_for_capacity" }], acc.2)) ∧
    (∀ (agents : List (String × CouncilAgent))
        (acc : List Assignment × List (String × AgentLoad))
        (proposal : RouteProposal) (load : AgentLoad) (alt : String),
      alistLookup acc.2 proposal.assigned_to = some load →
      ¬ load.available_capacity > 0 →
      redistribute_to_neighbor proposal.assigned_to proposal.task agents
        acc.2 = some alt →
      processProposal agents acc proposal =
        some (acc.1 ++
          [{ agent := alt, task := proposal.task,
             estimated_hours := some (estimate_hours proposal.task),
             repo := some (determine_repo proposal.task),
             redistributed_from := some proposal.assigned_to,
             reason := some "preferred_agent_at_capacity" }],
          decAvail acc.2 alt)) := by
  have hfind : ∀ (overloaded task : String)
      (agents : List (String × CouncilAgent))
      (loads : List (String × AgentLoad)),
      redistribute_to_neighbor overloaded task agents loads =
        ((alistLookup neighbor_map overloaded).getD []).find?
          (neighborQualifies agents loads task) := by
    intro overloaded task agents loads
    unfold redistribute_to_neighbor
    exact redistributeLoop_eq_find agents loads task _
  refine ⟨hfind, ?_, by decide, ?_, ?_⟩
  · intro overloaded task agents loads nb h
    rw [hfind] at h
    have hmem := List.mem_of_find?_eq_some h
    have hq := List.find?_some h
    refine ⟨hmem, ?_⟩
    unfold neighborQualifies at hq
    cases hl : alistLookup agents nb with
    | none => rw [hl] at hq; cases hq
    | some ag =>
      rw [hl] at hq
      simp only [Bool.and_eq_true, decide_eq_true_eq] at hq
      exact ⟨hq.1, ag, rfl, hq.2⟩
  · intro agents acc proposal load hload hcap hred
    simp [processProposal, hload, hcap, hred]
  · intro agents acc proposal load alt hload hcap hred
    simp [processProposal, hload, hcap, hred]

/-- A concrete loads dict with the preferred agent out of capacity and all
others free. -/
def c5Loads : List (String × AgentLoad) :=
  [("veda", ⟨3, 3, 0, 0⟩), ("aura", ⟨0, 3, 0, 3⟩), ("hex", ⟨0, 3, 0, 3⟩),
   ("node", ⟨0, 3, 0, 3⟩), ("spark", ⟨0, 3, 0, 3⟩), ("tess", ⟨0, 3, 0, 3⟩)]

/-- The council after `convene_council` with a one-item briefing whose task
matches exactly one agent above the consideration threshold. -/
def c6Council : List (String × CouncilAgent) :=
  convene_council { critical_path := ["review the docs"] } (create_council 0)

section

attribute [local semireducible] Rat.mul Rat.inv Rat.add Rat.sub
  Rat.ofScientific

/-- Witness for claim C5: with the preferred agent `"veda"` out of capacity
and a task neither ring neighbor scores above the threshold on, the
proposal is appended as `"queued"` and the loads are untouched. -/
theorem claim_C5_witness :
    processProposal (create_council 0) ([], c5Loads)
        { task := "zzz task", assigned_to := "veda", confidence := 3/10,
          alternatives := [] } =
      some ([{ agent := "veda", task := "zzz task",
               status := some "queued",
               reason := some "waiting_for_capacity" }], c5Loads) :=
  claim_C5_redistribution.2.2.2.1 (create_council 0) ([], c5Loads)
    { task := "zzz task", assigned_to := "veda", confidence := 3/10,
      alternatives := [] }
    ⟨3, 3, 0, 0⟩ (by decide) (by decide) (by decide)

/-- Counterexample for claim C6 as stated: on the task
`"review the docs"` only one agent (aura, at confidence 0.9) clears the
`0.3` threshold — so the candidate set has fewer than 2 members — yet the
task is assigned to that single contender, not to the fixed default agent
`"veda"`. -/
theorem claim_C6_counterexample :
    (contendersFor c6Council "review the docs").length < 2 ∧
    (routeTask c6Council "review the docs").1.assigned_to = "aura" ∧
    "aura" ≠ "veda" ∧
    (facilitate_deliberation c6Council).proposals.map
        (fun p => p.assigned_to) = ["aura"] := by
  exact ⟨by decide, by decide, by decide, by decide⟩

end

/-- Claim C6 (amended): the fixed default agent `"veda"` is used only when
NO candidate clears the `0.3` threshold; a single candidate wins outright;
and whenever the top two candidates' confidences differ by less than the
`0.2` margin a conflict (`"tess_decides"`) is recorded and the
higher-scoring candidate (the sorted head, which bounds every contender)
is selected. -/
theorem claim_C6_amended_routing :
    (∀ (agents : List (String × CouncilAgent)) (desc : String),
      contendersFor agents desc = [] →
      (routeTask agents desc).1.assigned_to = "veda") ∧
    (∀ (agents : List (String × CouncilAgent)) (desc : String)
        (c : Contender),
      sortedContendersFor agents desc = [c] →
      (routeTask agents desc).1.assigned_to = c.agent) ∧
    (∀ (agents : List (String × CouncilAgent)) (desc : String)
        (c0 c1 : Contender) (rest : List Contender),
      sortedContendersFor agents desc = c0 :: c1 :: rest →
      c0.confidence - c1.confidence < 2/10 →
      (routeTask agents desc).2 =
        some { task := desc, between := [c0.agent, c1.agent],
               resolution := "tess_decides" } ∧
      (routeTask agents desc).1.assigned_to = c0.agent ∧
      ∀ c ∈ contendersFor agents desc, c.confidence ≤ c0.confidence) := by
  refine ⟨?_, ?_, ?_⟩
  · intro agents desc h
    simp [routeTask, sortedContendersFor, h, List.insertionSort]
  · intro agents desc c h
    simp [routeTask, h]
  · intro agents desc c0 c1 rest h hlt
    refine ⟨?_, ?_, ?_⟩
    · simp [routeTask, h, hlt]
    · simp [routeTask, h, hlt]
    · intro c hc
      have hc' : c ∈ sortedContendersFor agents desc :=
        ((List.perm_insertionSort _ _).mem_iff).mpr hc
      have hsorted : List.Sorted
          (fun a b : Contender => b.confidence ≤ a.confidence)
          (sortedContendersFor agents desc) :=
        List.sorted_insertionSort _ _
      rw [h] at hc' hsorted
      rcases List.mem_cons.mp hc' with rfl | hc''
      · exact le_refl _
      · exact (List.sorted_cons.mp hsorted).1 c hc''

section

attribute [local semireducible] Rat.mul Rat.inv Rat.add Rat.sub
  Rat.ofScientific

/-- Witness for the amended claim C6 at a concrete tie: on
`"validate the design"` aura and spark both score 0.9, the gap is below
0.2, the conflict is recorded and aura (the stable-sorted head) wins. -/
theorem claim_C6_amended_witness :
    (routeTask (create_council 0) "validate the design").2 =
      some { task := "validate the design", between := ["aura", "spark"],
             resolution := "tess_decides" } ∧
    (routeTask (create_council 0) "validate the design").1.assigned_to =
      "aura" ∧
    ∀ c ∈ contendersFor (create_council 0) "validate the design",
      c.confidence ≤ (9/10 : ℚ) :=
  claim_C6_amended_routing.2.2 (create_council 0) "validate the design"
    ⟨"aura", 9/10, true⟩ ⟨"spark", 9/10, true⟩ [] (by decide) (by decide)

end

/-! ## convening.py: the Convening Ceremony state machine -/

/-- `ConveningPhase` from convening.py lines 29-37. -/
inductive ConveningPhase where
  | IDLE
  | RECEIVING_BRIEFING
  | DELIBERATING
  | PROPOSING
  | AWAITING_AUTHORIZATION
  | DEPLOYING
  | COMPLETE
deriving DecidableEq, Repr

/-- The result dict of `_validate_deliberation_wellness`
(convening.py lines 432-435). -/
structure WellnessCheck where
  approved : Bool
  concerns : List WellnessConcern
deriving DecidableEq, Repr

/-- The agent-overload concerns of `_validate_deliberation_wellness`
(convening.py lines 411-421): one per assignment whose agent exists and
fails `can_accept_task`; `agents.get` returning `None` skips the entry. -/
def overloadConcerns (agents : List (String × CouncilAgent))
    (assignments : List Assignment) : List WellnessConcern :=
  assignments.filterMap (fun a =>
    match alistLookup agents a.agent with
    | none => none
    | some ag =>
      if ¬ can_accept_task ag.base.biometrics then
        some { type := "agent_overload", agent := some a.agent,
               message := a.agent ++ " already at capacity" }
      else none)

/-- The heavy-workload concern of `_validate_deliberation_wellness`
(convening.py lines 425-430). -/
def heavyConcern : WellnessConcern :=
  { type := "heavy_workload",
    message := "Total workload may cause stress",
    suggestion := some "Consider breaking into sprints" }

/-- `sum(a.get("estimated_hours", 4) for a in assignments)`
(convening.py line 424). -/
def totalEstimatedHours (assignments : List Assignment) : ℚ :=
  (assignments.map (fun a => a.estimated_hours.getD 4)).sum

/-- `CouncilConvening._validate_deliberation_wellness`
(convening.py lines 407-435). -/
def validate_deliberation_wellness (agents : List (String × CouncilAgent))
    (assignments : List Assignment) : WellnessCheck :=
  let concerns := overloadConcerns agents assignments
  let concerns :=
    concerns ++
      (if totalEstimatedHours assignments > 40 then [heavyConcern] else [])
  { approved := concerns.isEmpty, concerns := concerns }

/-- `AuraAgent.veto_proposal` (aura.py lines 216-260), as the declaration
value; the append to aura's `vetoes_issued` is threaded by the caller. -/
def veto_proposal (proposal_title : Option String)
    (reasons : List WellnessConcern) (now : Nat) : VetoDeclaration :=
  { authority := "aura_absolute_veto"
    proposal := proposal_title
    veto_timestamp := now
    reasons := reasons
    can_override := false
    requires_redesign := true }

/-- The NECTAR estimate of `HexAgent.calculate_accrual_estimate`
(hex.py lines 258-297); `by_agent` maps an agent to its (hours, nectar)
pair. -/
structure NectarEstimate where
  by_agent : List (String × (ℚ × ℚ))
  total_nectar : ℚ
deriving DecidableEq, Repr

/-- The accumulation loop of `calculate_accrual_estimate`
(hex.py lines 274-290).  The assignment dicts produced by
`optimize_distribution` carry no `"estimated_duration"` and no
`"description"` key, so `assignment.get("estimated_duration", 0)` is `0`
and the `"cross"` boost test runs on the empty string. -/
def accrualLoop : List Assignment → List (String × (ℚ × ℚ)) → ℚ →
    List (String × (ℚ × ℚ)) × ℚ
  | [], est, total => (est, total)
  | a :: rest, est, total =>
    let hours : ℚ := 0
    let estimated_nectar := hours * 10
    let cur := (alistLookup est a.agent).getD (0, 0)
    accrualLoop rest
      (alistSet est a.agent (cur.1 + hours, cur.2 + estimated_nectar))
      (total + estimated_nectar)

/-- `HexAgent.calculate_accrual_estimate` (hex.py lines 258-297); the
disclaimer strings of the result are constants. -/
def calculate_accrual_estimate (assignments : List Assignment) :
    NectarEstimate :=
  let r := accrualLoop assignments [] 0
  { by_agent := r.1, total_nectar := r.2 }

/-- The convening-level deliberation record (convening.py lines 169-173 and
187-193). -/
inductive DelibRecord where
  | vetoed (by_ : String) (reason : VetoDeclaration)
  | complete (assignments : List Assignment) (timeline : Timeline)
      (wellness_approved : Bool) (nectar_estimate : NectarEstimate)
deriving DecidableEq, Repr

/-- The proposal document built by `generate_proposal`
(convening.py lines 205-253), restricted to the fields later phases read;
the `agent_status` and `risk_assessment` blocks are display snapshots no
later computation reads. -/
structure CouncilProposal where
  timestamp : Nat
  objective : String
  assignments : List Assignment
  total_timeline : Timeline
  total_diligence_accrual : NectarEstimate
  authorized_by : Option String := none
  authorized_at : Option Nat := none
  rejected_at : Option Nat := none
  awaiting_chief_architect_authorization : Bool := true
deriving DecidableEq, Repr

/-- The mutable state of a `CouncilConvening` (convening.py lines 66-76). -/
structure ConveningState where
  agents : List (String × CouncilAgent)
  ledger : LedgerState
  phase : ConveningPhase
  current_briefing : Option Briefing := none
  current_proposal : Option CouncilProposal := none
  deliberation_record : Option DelibRecord := none
  meeting_start : Option Nat := none

/-- `CouncilConvening.__init__` (convening.py lines 66-76) at abstract
creation time `now`; the ledger starts empty (no durable file). -/
def initConvening (now : ℚ) : ConveningState :=
  { agents := create_council now
    ledger := ⟨[], []⟩
    phase := ConveningPhase.IDLE }

/-- `CouncilConvening.receive_briefing` (convening.py lines 79-122): set
the phase and meeting start, default the protected notice when missing,
store the briefing and convene the council (every agent receives it).  The
`if not sofie_briefing` early return rejects an empty briefing dict before
any of these effects; callers of this embedding pass a briefing. -/
def cr_receive_briefing (st : ConveningState) (sofie_briefing : Briefing)
    (nowN : Nat) : ConveningState :=
  let st := { st with
      phase := ConveningPhase.RECEIVING_BRIEFING
      meeting_start := some nowN }
  let notice : String :=
    "sofie-llama-backend is sovereign territory - " ++
      "council builds external interfaces only"
  let sofie_briefing :=
    if sofie_briefing.protected_notice.isNone then
      { sofie_briefing with protected_notice := some notice }
    else sofie_briefing
  { st with
      current_briefing := some sofie_briefing
      agents := convene_council sofie_briefing st.agents }

/-- Append a veto to aura's `vetoes_issued`
(the `self.vetoes_issued.append` of aura.py line 254; the council always
contains aura). -/
def appendAuraVeto (agents : List (String × CouncilAgent))
    (veto : VetoDeclaration) : List (String × CouncilAgent) :=
  agents.map (fun p =>
    if p.1 = "aura" then
      (p.1, { p.2 with vetoes_issued := p.2.vetoes_issued ++ [veto] })
    else p)

/-- The return value of `CouncilConvening.deliberate`
(convening.py lines 175-179 and 197-203). -/
inductive DeliberateResult where
  | blocked (veto : VetoDeclaration)
  | deliberated (assignments : Nat) (timeline : Timeline)
      (nectar_estimate : NectarEstimate)
deriving DecidableEq, Repr

/-- `CouncilConvening.deliberate` (convening.py lines 124-203): set the
phase to `DELIBERATING`, run Tess's deliberation, optimisation and
dependency pass, then Aura's wellness gate; on veto, record the veto and
return blocked (the phase is not changed again); otherwise record the
completed deliberation with Hex's estimate.  `none` is the `KeyError`
`optimize_distribution` would raise on a proposal naming an unknown
agent. -/
def deliberate (st : ConveningState) (now : Nat) :
    Option (ConveningState × DeliberateResult) :=
  let st := { st with phase := ConveningPhase.DELIBERATING }
  let delib := facilitate_deliberation st.agents
  match optimize_distribution delib.proposals st.agents with
  | none => none
  | some optimized =>
    let with_dependencies := coordinate_dependencies optimized.assignments
    let wellness_check :=
      validate_deliberation_wellness st.agents with_dependencies
    if wellness_check.approved then
      let nectar_estimate := calculate_accrual_estimate with_dependencies
      some ({ st with
          deliberation_record := some (DelibRecord.complete
            with_dependencies optimized.timeline true nectar_estimate) },
        DeliberateResult.deliberated with_dependencies.length
          optimized.timeline nectar_estimate)
    else
      let veto := veto_proposal (some "Council Plan") wellness_check.concerns
        now
      some ({ st with
          agents := appendAuraVeto st.agents veto
          deliberation_record := some (DelibRecord.vetoed "aura" veto) },
        DeliberateResult.blocked veto)

/-- The return value of `CouncilConvening.authorize`
(convening.py lines 270-295). -/
inductive AuthResult where
  | errorNoProposal
  | authorized
  | rejected
deriving DecidableEq, Repr

/-- `CouncilConvening.authorize` (convening.py lines 255-295): with no
proposal, an error; on approval, stamp the proposal authorized; on
rejection, stamp `rejected_at` and return the phase to `IDLE` — the
proposal object itself is kept in `current_proposal`. -/
def authorize (st : ConveningState) (proposal_id : String)
    (authorized : Bool) (now : Nat) : ConveningState × AuthResult :=
  match st.current_proposal with
  | none => (st, AuthResult.errorNoProposal)
  | some p =>
    if authorized then
      ({ st with current_proposal := some { p with
            authorized_by := some "chief_architect"
            authorized_at := some now
            awaiting_chief_architect_authorization := false } },
       AuthResult.authorized)
    else
      ({ st with
          current_proposal := some { p with rejected_at := some now }
          phase := ConveningPhase.IDLE },
       AuthResult.rejected)

/-- One result entry of `TessAgent.execute_deployment`
(tess.py lines 450-491). -/
structure ExecutionEntry where
  assignment : Assignment
  status : String
  task_id : Option String := none
  agent : Option String := none
  error : Option String := none
  reason : Option String := none
deriving DecidableEq, Repr

/-- The per-assignment body of `TessAgent.execute_deployment`
(tess.py lines 452-491): unknown agents fail that entry, otherwise a high
priority task is created and assigned (and started when accepted), or the
entry is queued when the agent is at capacity. -/
def deployStep (now : ℚ)
    (acc : List (String × CouncilAgent) × List ExecutionEntry)
    (a : Assignment) : List (String × CouncilAgent) × List ExecutionEntry :=
  let agents := acc.1
  let results := acc.2
  match alistLookup agents a.agent with
  | none =>
    (agents, results ++
      [{ assignment := a, status := "failed",
         error := some ("Agent " ++ a.agent ++ " not found") }])
  | some ag =>
    let task : Task :=
      { id := "council_" ++ a.agent ++ "_" ++ toString now
        title := a.task
        description := a.task
        repo := a.repo.getD "unknown"
        priority := TaskPriority.HIGH
        estimated_hours := a.estimated_hours.getD 4 }
    let r := assign_task ag.base task now
    if r.2 then
      let r2 := start_task r.1 task.id now
      (alistSet agents a.agent { ag with base := r2.1 },
       results ++
         [{ assignment := a, status := "deployed",
            task_id := some task.id, agent := some a.agent }])
    else
      (agents, results ++
        [{ assignment := a, status := "queued",
           reason := some "agent_at_capacity", agent := some a.agent }])

/-- `TessAgent.execute_deployment` (tess.py lines 438-500), as the final
agents dict and the result list. -/
def execute_deployment (assignments : List Assignment)
    (agents : List (String × CouncilAgent)) (now : ℚ) :
    List (String × CouncilAgent) × List ExecutionEntry :=
  assignments.foldl (deployStep now) (agents, [])

/-- The return value of `CouncilConvening.deploy`. -/
inductive DeployResult where
  | errorNotAuthorized
  | deployed (results : List ExecutionEntry)
deriving DecidableEq, Repr

/-- `CouncilConvening.deploy` (convening.py lines 297-333): the phase is
set to `DEPLOYING` first; without an authorized proposal the call returns
the error (leaving the phase at `DEPLOYING`); otherwise Tess executes the
deployment and the phase becomes `COMPLETE`. -/
def deploy (st : ConveningState) (now : ℚ) :
    ConveningState × DeployResult :=
  let st := { st with phase := ConveningPhase.DEPLOYING }
  match st.current_proposal with
  | none => (st, DeployResult.errorNotAuthorized)
  | some p =>
    if p.authorized_by.isNone then (st, DeployResult.errorNotAuthorized)
    else
      let r := execute_deployment p.assignments st.agents now
      ({ st with agents := r.1, phase := ConveningPhase.COMPLETE },
       DeployResult.deployed r.2)

/-- Claim C7 (amended): when the assignments produced during deliberation
total more than 40 estimated hours, `deliberate` returns blocked with a
veto whose reasons contain the specific `heavy_workload` concern, records
the veto, and leaves the phase at `Deliberating` — it does NOT return the
ceremony to `Idle`. -/
theorem claim_C7_heavy_workload_veto :
    ∀ (st : ConveningState) (now : Nat) (opt : OptimizeResult),
      optimize_distribution (facilitate_deliberation st.agents).proposals
        st.agents = some opt →
      totalEstimatedHours (coordinate_dependencies opt.assignments) > 40 →
      ∃ st' veto,
        deliberate st now = some (st', DeliberateResult.blocked veto) ∧
        st'.phase = ConveningPhase.DELIBERATING ∧
        st'.phase ≠ ConveningPhase.IDLE ∧
        heavyConcern ∈ veto.reasons ∧
        veto.reasons = (validate_deliberation_wellness st.agents
          (coordinate_dependencies opt.assignments)).concerns ∧
        st'.deliberation_record = some (DelibRecord.vetoed "aura" veto) := by
  intro st now opt hopt htot
  have hconc : (validate_deliberation_wellness st.agents
      (coordinate_dependencies opt.assignments)).concerns =
      overloadConcerns st.agents (coordinate_dependencies opt.assignments)
        ++ [heavyConcern] := by
    simp [validate_deliberation_wellness, htot]
  have happr : (validate_deliberation_wellness st.agents
      (coordinate_dependencies opt.assignments)).approved = false := by
    simp [validate_deliberation_wellness, htot]
  refine
    ⟨{ st with
        phase := ConveningPhase.DELIBERATING
        agents := appendAuraVeto st.agents (veto_proposal
          (some "Council Plan") (validate_deliberation_wellness st.agents
            (coordinate_dependencies opt.assignments)).concerns now)
        deliberation_record := some (DelibRecord.vetoed "aura"
          (veto_proposal (some "Council Plan")
            (validate_deliberation_wellness st.agents
              (coordinate_dependencies opt.assignments)).concerns now)) },
     veto_proposal (some "Council Plan")
       (validate_deliberation_wellness st.agents
         (coordinate_dependencies opt.assignments)).concerns now,
     ?_, rfl, by simp, ?_, rfl, rfl⟩
  · simp only [deliberate, hopt, happr, Bool.false_eq_true, if_false]
  · show heavyConcern ∈ (veto_proposal (some "Council Plan")
      (validate_deliberation_wellness st.agents
        (coordinate_dependencies opt.assignments)).concerns now).reasons
    rw [veto_proposal, hconc]
    simp

/-- The deliberating-state council for the heavy-workload scenario: three
architecture tasks of 16 estimated hours each (48 in total). -/
def c7Briefing : Briefing :=
  { critical_path :=
      ["restructure the architecture alpha",
       "restructure the architecture beta",
       "restructure the architecture gamma"] }

/-- The ceremony state after receiving the heavy briefing. -/
def c7State : ConveningState :=
  cr_receive_briefing (initConvening 0) c7Briefing 0

/-- The optimisation result the deliberation over `c7State` produces. -/
def c7Opt : OptimizeResult :=
  (optimize_distribution (facilitate_deliberation c7State.agents).proposals
    c7State.agents).getD ⟨[], ⟨0, 1, 1/5⟩, 0, []⟩

/-- A proposal as produced by `generate_proposal`: not yet authorized. -/
def c8Proposal : CouncilProposal :=
  { timestamp := 0
    objective := "Ecosystem Development"
    assignments := []
    total_timeline := ⟨0, 1, 1/5⟩
    total_diligence_accrual := ⟨[], 0⟩ }

/-- A ceremony state awaiting authorization on `c8Proposal`. -/
def c8State : ConveningState :=
  { agents := create_council 0
    ledger := ⟨[], []⟩
    phase := ConveningPhase.AWAITING_AUTHORIZATION
    current_proposal := some c8Proposal }

section

attribute [local semireducible] Rat.mul Rat.inv Rat.add Rat.sub
  Rat.ofScientific

/-- Counterexample for claim C7 as stated: on a briefing totalling 48
estimated hours the deliberation IS vetoed with a `heavy_workload` reason,
but the ceremony does not return to the `Idle` phase — the phase stays
`Deliberating`. -/
theorem claim_C7_counterexample :
    (deliberate c7State 1).map (fun r => r.1.phase) =
      some ConveningPhase.DELIBERATING ∧
    ¬ ((deliberate c7State 1).map (fun r => r.1.phase) =
      some ConveningPhase.IDLE) ∧
    (deliberate c7State 1).map (fun r =>
      match r.2 with
      | DeliberateResult.blocked veto =>
          veto.reasons.any (fun c => c.type == "heavy_workload")
      | _ => false) = some true := by
  exact ⟨by decide, by decide, by decide⟩

/-- Witness for the amended claim C7 at the concrete heavy briefing. -/
theorem claim_C7_witness :
    ∃ st' veto,
      deliberate c7State 1 = some (st', DeliberateResult.blocked veto) ∧
      st'.phase = ConveningPhase.DELIBERATING ∧
      st'.phase ≠ ConveningPhase.IDLE ∧
      heavyConcern ∈ veto.reasons ∧
      veto.reasons = (validate_deliberation_wellness c7State.agents
        (coordinate_dependencies c7Opt.assignments)).concerns ∧
      st'.deliberation_record = some (DelibRecord.vetoed "aura" veto) :=
  claim_C7_heavy_workload_veto c7State 1 c7Opt (by decide) (by decide)

/-- Counterexample for claim C8 as stated: rejecting the pending proposal
returns the phase to `Idle` but does NOT discard the proposal —
`current_proposal` still holds it (stamped `rejected_at`). -/
theorem claim_C8_counterexample :
    (authorize c8State "proposal-1" false 5).1.current_proposal =
      some { c8Proposal with rejected_at := some 5 } ∧
    (authorize c8State "proposal-1" false 5).1.current_proposal ≠ none ∧
    (authorize c8State "proposal-1" false 5).1.phase =
      ConveningPhase.IDLE := by
  exact ⟨by decide, by decide, by decide⟩

end

/-- Claim C8 (amended): rejecting while a proposal exists returns the phase
to `Idle` and keeps the proposal, stamped `rejected_at`, in
`current_proposal` (it is retained, not discarded); provided the proposal
had not been authorized, a subsequent `deploy` returns the
missing-precondition error, changes no agent state, and leaves the phase at
`Deploying`. -/
theorem claim_C8_amended_rejection :
    ∀ (st : ConveningState) (proposal_id : String) (now : Nat)
      (p : CouncilProposal) (q : ℚ),
      st.current_proposal = some p →
      p.authorized_by = none →
      (authorize st proposal_id false now).2 = AuthResult.rejected ∧
      (authorize st proposal_id false now).1.phase = ConveningPhase.IDLE ∧
      (authorize st proposal_id false now).1.current_proposal =
        some { p with rejected_at := some now } ∧
      (deploy (authorize st proposal_id false now).1 q).2 =
        DeployResult.errorNotAuthorized ∧
      (deploy (authorize st proposal_id false now).1 q).1.agents =
        st.agents ∧
      (deploy (authorize st proposal_id false now).1 q).1.phase =
        ConveningPhase.DEPLOYING := by
  intro st proposal_id now p q hprop hauth
  have hA : authorize st proposal_id false now =
      ({ st with
          current_proposal := some { p with rejected_at := some now }
          phase := ConveningPhase.IDLE },
       AuthResult.rejected) := by
    simp [authorize, hprop]
  refine ⟨by rw [hA], by rw [hA], by rw [hA], ?_, ?_, ?_⟩ <;>
    rw [hA] <;> simp [deploy, hauth]

section

attribute [local semireducible] Rat.mul Rat.inv Rat.add Rat.sub
  Rat.ofScientific

/-- Witness for the amended claim C8 at the concrete pending proposal. -/
theorem claim_C8_witness :
    (authorize c8State "proposal-1" false 5).2 = AuthResult.rejected ∧
    (authorize c8State "proposal-1" false 5).1.phase =
      ConveningPhase.IDLE ∧
    (authorize c8State "proposal-1" false 5).1.current_proposal =
      some { c8Proposal with rejected_at := some 5 } ∧
    (deploy (authorize c8State "proposal-1" false 5).1 2).2 =
      DeployResult.errorNotAuthorized ∧
    (deploy (authorize c8State "proposal-1" false 5).1 2).1.agents =
      c8State.agents ∧
    (deploy (authorize c8State "proposal-1" false 5).1 2).1.phase =
      ConveningPhase.DEPLOYING :=
  claim_C8_amended_rejection c8State "proposal-1" 5 c8Proposal 2 rfl rfl

end

end Council
